import Mathlib

/-!
Verification of the authentication/session-lifecycle core of the
django-structure repository.

The data model and the operations below are a shallow embedding of
src/management/apps/authentication/models.py, backends.py and views.py:
pure Lean functions over an explicit state record stand in for the
Django ORM calls, UUIDs are represented by natural numbers, timestamps
by natural numbers (seconds), and the SimpleJWT token machinery by a
record carrying the decoded claims together with a signature flag.
-/

namespace DjangoAuth

/-- The authentication.User model (models.py): only the fields the
authentication core reads or writes are represented.  The password
field is the stored hash; the value none models the unusable-password
sentinel set by set_unusable_password. -/
structure Account where
  id : Nat
  username : String
  email : String
  firstName : String
  lastName : String
  profilePicture : Option String
  password : Option String
  tokenVersion : Nat
  emailVerified : Bool
  emailVerificationToken : Nat
  passwordResetToken : Option Nat
  passwordResetTokenCreated : Option Nat
  deriving Repr, DecidableEq

inductive TokenKind
  | access
  | refresh
  deriving Repr, DecidableEq

/-- A decoded SimpleJWT token.  raw is the serialized token string (used
as the key of the outstanding/blacklist side tables), tokenVersion is
the embedded token_version claim (none models a payload that lacks the
claim, read back with payload.get with default 0), sigOk models whether
the signature verifies under the server key. -/
structure Token where
  raw : String
  userId : Nat
  tokenVersion : Option Nat
  kind : TokenKind
  exp : Nat
  sigOk : Bool
  deriving Repr, DecidableEq

/-- The persistent state: the user table, the OutstandingToken and
BlacklistedToken side tables (by serialized token string), and the
current time. -/
structure AuthState where
  users : List Account
  outstanding : List String
  blacklist : List String
  now : Nat
  deriving Repr, DecidableEq

/-- User.objects.get(id=uid). -/
def findUser (s : AuthState) (uid : Nat) : Option Account :=
  s.users.find? (fun a => a.id == uid)

/-- User.objects.get(email=e). -/
def findByEmail (s : AuthState) (e : String) : Option Account :=
  s.users.find? (fun a => a.email == e)

/-- User.objects.get(password_reset_token=tok). -/
def findByResetToken (s : AuthState) (tok : Nat) : Option Account :=
  s.users.find? (fun a => a.passwordResetToken == some tok)

/-- User.objects.get(email_verification_token=tok). -/
def findByVerificationToken (s : AuthState) (tok : Nat) : Option Account :=
  s.users.find? (fun a => a.emailVerificationToken == tok)

/-- Persist a per-account mutation (user.save()). -/
def updateUser (s : AuthState) (uid : Nat) (f : Account → Account) : AuthState :=
  { s with users := s.users.map (fun a => if a.id == uid then f a else a) }

/-- User.increment_token_version (models.py): adds one to token_version
and saves only that field. -/
def increment_token_version (u : Account) : Account :=
  { u with tokenVersion := u.tokenVersion + 1 }

/-- User.clear_password_reset_token (models.py). -/
def clear_password_reset_token (u : Account) : Account :=
  { u with passwordResetToken := none, passwordResetTokenCreated := none }

/-- User.generate_password_reset_token (models.py): stores the fresh
token together with the current time. -/
def generate_password_reset_token (u : Account) (tok now : Nat) : Account :=
  { u with passwordResetToken := some tok, passwordResetTokenCreated := some now }

/-- User.is_password_reset_token_valid (models.py), called with an
already-parsed UUID.  Returns some b for a normal return, none for the
TypeError the source raises when the stored token matches but the
creation timestamp is null (subtracting None from a datetime). -/
def is_password_reset_token_valid (u : Account) (tok : Nat) (now : Nat) : Option Bool :=
  if u.passwordResetToken ≠ some tok then some false
  else match u.passwordResetTokenCreated with
    | none => none
    | some created => some (decide (now - created ≤ 86400))

/-- The checks done by rest_framework_simplejwt Token construction and
verify before the custom logic runs: signature, expiry, token type. -/
def superVerifyOk (s : AuthState) (t : Token) (kind : TokenKind) : Bool :=
  t.sigOk && decide (s.now < t.exp) && (t.kind == kind)

/-- payload.get with token_version as key and 0 as default. -/
def embeddedVersion (t : Token) : Nat :=
  t.tokenVersion.getD 0

/-- The blacklist lookup in CustomAccessToken.verify (backends.py):
an OutstandingToken row with this serialized string must exist and a
BlacklistedToken row must point at it. -/
def accessBlacklisted (s : AuthState) (t : Token) : Bool :=
  s.outstanding.contains t.raw && s.blacklist.contains t.raw

/-- CustomAccessToken.verify (backends.py): the inherited checks, then
the user lookup, the token-version comparison, and the blacklist
lookup, each failure raising InvalidToken with the quoted message. -/
def customAccessVerify (s : AuthState) (t : Token) : Except String Unit :=
  if superVerifyOk s t TokenKind.access then
    match findUser s t.userId with
    | none => Except.error "User not found"
    | some u =>
      if embeddedVersion t < u.tokenVersion then
        Except.error "Token version mismatch - user has logged out"
      else if accessBlacklisted s t then
        Except.error "Token has been blacklisted"
      else Except.ok ()
  else Except.error "Token is invalid or expired"

/-- Construction of a RefreshToken from a serialized string: with the
token_blacklist app installed (settings/base.py) this verifies the
signature, expiry and token type, and raises if the token has been
blacklisted. -/
def refreshConstructOk (s : AuthState) (t : Token) : Bool :=
  superVerifyOk s t TokenKind.refresh && !(s.blacklist.contains t.raw)

/-- Issuance of a token for a user as done in LoginView, the refresh
view and GoogleLoginView: the claims snapshot the account fields,
including the current token_version. -/
def issueToken (u : Account) (kind : TokenKind) (raw : String) (exp : Nat) : Token :=
  { raw := raw, userId := u.id, tokenVersion := some u.tokenVersion,
    kind := kind, exp := exp, sigOk := true }

structure HttpResult where
  status : Nat
  body : String
  deriving Repr, DecidableEq

/-- The response of TokenRefreshView.post (views.py): the status, the
error body on failure, and on success the freshly issued refresh and
access tokens. -/
structure RefreshResult where
  status : Nat
  body : String
  tokens : Option (Token × Token)
  deriving Repr, DecidableEq

/-- TokenRefreshView.post (views.py): build a RefreshToken from the
input, look the user up by the user_id claim, reject with 401 when the
embedded token_version is below the account's current one, otherwise
issue a fresh refresh+access pair stamped with the current version.
TokenError, InvalidToken and a missing user all collapse to the same
401 response. -/
def tokenRefreshPost (s : AuthState) (t : Token) (rawR rawA : String)
    (expR expA : Nat) : RefreshResult :=
  if refreshConstructOk s t then
    match findUser s t.userId with
    | none => { status := 401, body := "Invalid refresh token.", tokens := none }
    | some u =>
      if embeddedVersion t < u.tokenVersion then
        { status := 401, body := "Invalid refresh token.", tokens := none }
      else
        { status := 200, body := "",
          tokens := some (issueToken u TokenKind.refresh rawR expR,
                          issueToken u TokenKind.access rawA expA) }
  else { status := 401, body := "Invalid refresh token.", tokens := none }

/-- A logout request: the authenticated caller (request.user), the
refresh token from the body, and the Authorization header. -/
structure LogoutRequest where
  requesterId : Nat
  refresh : Option Token
  authHeader : String

/-- BlacklistedToken.objects.create guarded by the OutstandingToken
lookup, as in LogoutView.post: only a token that has an outstanding row
is blacklisted; otherwise the DoesNotExist is swallowed. -/
def blacklistIfOutstanding (s : AuthState) (raw : String) : AuthState :=
  if s.outstanding.contains raw then { s with blacklist := raw :: s.blacklist } else s

/-- auth_header.split at spaces, element 1: the raw access token of a
Bearer authorization header. -/
def bearerAccessRaw (h : String) : String :=
  (h.splitOn " ").getD 1 ""

/-- The blacklist phase of LogoutView.post: both tokens are recorded as
revoked only when the Authorization header starts with Bearer. -/
def logoutBlacklistPhase (s : AuthState) (r : LogoutRequest) (t : Token) : AuthState :=
  if r.authHeader.startsWith "Bearer " then
    blacklistIfOutstanding (blacklistIfOutstanding s t.raw) (bearerAccessRaw r.authHeader)
  else s

/-- LogoutView.post (views.py): 400 without a refresh token in the
body; otherwise construct the RefreshToken (an exception yields 400 and
no state change), blacklist the refresh and access tokens only when the
Authorization header starts with Bearer and an outstanding row exists,
then unconditionally increment the requesting user's token_version and
answer 200. -/
def logoutPost (s : AuthState) (r : LogoutRequest) : AuthState × HttpResult :=
  match r.refresh with
  | none => (s, { status := 400, body := "Refresh token is required." })
  | some t =>
    if refreshConstructOk s t then
      (updateUser (logoutBlacklistPhase s r t) r.requesterId increment_token_version,
       { status := 200, body := "Successfully logged out." })
    else (s, { status := 400, body := "Token is invalid or expired" })

/-- PasswordResetConfirmView.post (views.py): tokenStr is the parsed
UUID from the request body, none standing for a string uuid.UUID
rejects.  The user is looked up by the stored reset token; the validity
check then decides between resetting (set_password, clear the token
fields, increment token_version, save) and a 400; the TypeError case of
the validity check is caught by the outer handler as a 500. -/
def passwordResetConfirmPost (s : AuthState) (tokenStr : Option Nat)
    (newPassword : String) : AuthState × HttpResult :=
  match tokenStr with
  | none => (s, { status := 400, body := "Invalid token format." })
  | some tok =>
    match findByResetToken s tok with
    | none =>
      (s, { status := 400,
            body := "Invalid or expired token. Please request a new password reset." })
    | some u =>
      match is_password_reset_token_valid u tok s.now with
      | some true =>
        (updateUser s u.id (fun a =>
          increment_token_version
            (clear_password_reset_token { a with password := some newPassword })),
         { status := 200,
           body := "Password has been reset successfully. You can now log in with your new password." })
      | some false =>
        (s, { status := 400,
              body := "Invalid or expired token. Please request a new password reset." })
      | none =>
        (s, { status := 500, body := "An error occurred. Please try again later." })

/-- PasswordResetRequestView.post (views.py): email is the validated
body field (none standing for a missing/invalid email), newTok the
fresh UUID, emailOk the result of the EmailService send.  When the user
exists the reset token is stored before the send is attempted, and a
failed send surfaces as a 500; an unknown email silently returns the
same 200 as a successful send. -/
def passwordResetRequestPost (s : AuthState) (email : Option String)
    (newTok : Nat) (emailOk : Bool) : AuthState × HttpResult :=
  match email with
  | none => (s, { status := 400, body := "Email is required." })
  | some e =>
    match findByEmail s e with
    | some u =>
      let s1 := updateUser s u.id (fun a => generate_password_reset_token a newTok s.now)
      if emailOk then
        (s1, { status := 200, body := "Password reset email has been sent." })
      else
        (s1, { status := 500,
               body := "Failed to send password reset email. Please try again later." })
    | none => (s, { status := 200, body := "Password reset email has been sent." })

/-- The outcome of VerifyEmailView.get: the new state, the response,
and whether the welcome notification send was triggered. -/
structure VerifyEmailResult where
  state : AuthState
  status : Nat
  detail : String
  welcomeSent : Bool
  deriving Repr, DecidableEq

/-- VerifyEmailView.get (views.py): look the user up by the
verification token; unknown tokens give 400, an unverified user is
marked verified and the welcome email is attempted (best effort), an
already verified user gets an idempotent 200 with no side effect. -/
def verifyEmailGet (s : AuthState) (tok : Nat) : VerifyEmailResult :=
  match findByVerificationToken s tok with
  | none => { state := s, status := 400, detail := "Invalid token.", welcomeSent := false }
  | some u =>
    if u.emailVerified then
      { state := s, status := 200, detail := "Email already verified.", welcomeSent := false }
    else
      { state := updateUser s u.id (fun a => { a with emailVerified := true }),
        status := 200,
        detail := "Email verified successfully. Welcome email has been sent.",
        welcomeSent := true }

/-- The characters before the first '@' (the whole list when no '@'
occurs), matching element 0 of a Python split at '@'. -/
def localPartChars : List Char → List Char
  | [] => []
  | c :: cs => if c = '@' then [] else c :: localPartChars cs

/-- email.split at '@', element 0. -/
def localPart (email : String) : String :=
  String.mk (localPartChars email.data)

/-- User.objects.filter(username=name).exists(). -/
def usernameTaken (s : AuthState) (name : String) : Bool :=
  s.users.any (fun a => a.username == name)

/-- The while loop of GoogleLoginView.post that appends counter values
1, 2, ... to the base username until the candidate is free; fuel bounds
the iteration count so the recursion is structural.  With fuel larger
than the number of users the loop always terminates before the fuel
runs out. -/
def uniqueUsernameAux (s : AuthState) (base : String) : Nat → Nat → String
  | 0, k => base ++ toString k
  | Nat.succ fuel, k =>
    if usernameTaken s (base ++ toString k) then uniqueUsernameAux s base fuel (k + 1)
    else base ++ toString k

/-- Username selection of GoogleLoginView.post: the email local part
itself when free, otherwise the first free candidate among base1,
base2, ... -/
def uniqueUsername (s : AuthState) (base : String) : String :=
  if usernameTaken s base then uniqueUsernameAux s base (s.users.length + 1) 1
  else base

/-- The update of an existing user in GoogleLoginView.post: first name,
last name and profile picture are filled in only when currently empty
and the incoming value is non-empty. -/
def googleUpdate (firstName lastName : String) (pic : Option String)
    (a : Account) : Account :=
  { a with
    firstName := if firstName ≠ "" ∧ a.firstName = "" then firstName else a.firstName,
    lastName := if lastName ≠ "" ∧ a.lastName = "" then lastName else a.lastName,
    profilePicture := if pic.isSome ∧ a.profilePicture = none then pic else a.profilePicture }

/-- The account User.objects.create builds in GoogleLoginView.post for
an unknown email, followed by set_unusable_password: disambiguated
username, email_verified true, unusable password, token_version at its
column default 0.  newId and newVerifTok stand for the
database-assigned id and the UUID default of the verification token
column. -/
def googleNewUser (s : AuthState) (email firstName lastName : String)
    (pic : Option String) (newId newVerifTok : Nat) : Account :=
  { id := newId, username := uniqueUsername s (localPart email), email := email,
    firstName := firstName, lastName := lastName, profilePicture := pic,
    password := none, tokenVersion := 0, emailVerified := true,
    emailVerificationToken := newVerifTok,
    passwordResetToken := none, passwordResetTokenCreated := none }

/-- GoogleLoginView.post (views.py), state transition and the account
the tokens are issued for: find the user by email and fill in missing
profile fields, or create a fresh user with a disambiguated username,
email_verified true and an unusable password. -/
def googleLoginPost (s : AuthState) (email firstName lastName : String)
    (pic : Option String) (newId newVerifTok : Nat) : AuthState × Account :=
  match findByEmail s email with
  | some u =>
    (updateUser s u.id (googleUpdate firstName lastName pic),
     googleUpdate firstName lastName pic u)
  | none =>
    ({ s with users := s.users
        ++ [googleNewUser s email firstName lastName pic newId newVerifTok] },
     googleNewUser s email firstName lastName pic newId newVerifTok)

/-! ## Concrete fixtures used to evaluate the operations -/

/-- A verified user at token_version 0. -/
def alice : Account :=
  { id := 1, username := "alice", email := "alice@x.com", firstName := "",
    lastName := "", profilePicture := none, password := some "hash1",
    tokenVersion := 0, emailVerified := true, emailVerificationToken := 11,
    passwordResetToken := none, passwordResetTokenCreated := none }

/-- An unverified user at token_version 3 with a pending password reset
issued at time 1000. -/
def bob : Account :=
  { id := 2, username := "bob", email := "bob@x.com", firstName := "",
    lastName := "", profilePicture := none, password := some "hash2",
    tokenVersion := 3, emailVerified := false, emailVerificationToken := 22,
    passwordResetToken := some 77, passwordResetTokenCreated := some 1000 }

def demoState : AuthState :=
  { users := [alice, bob], outstanding := ["refRaw"], blacklist := [], now := 1000 }

/-- An access token for alice carrying version 0 claims. -/
def aliceAccess : Token :=
  { raw := "accRaw", userId := 1, tokenVersion := some 0,
    kind := TokenKind.access, exp := 5000, sigOk := true }

/-- A refresh token for alice carrying version 0 claims. -/
def aliceRefresh : Token :=
  { raw := "refRaw", userId := 1, tokenVersion := some 0,
    kind := TokenKind.refresh, exp := 9000, sigOk := true }

/-- A refresh token for bob whose payload lacks the token_version
claim. -/
def bobLegacyRefresh : Token :=
  { raw := "legacyRaw", userId := 2, tokenVersion := none,
    kind := TokenKind.refresh, exp := 9000, sigOk := true }

/-- An access token for alice whose payload lacks the token_version
claim. -/
def aliceLegacyAccess : Token :=
  { raw := "legacyAcc", userId := 1, tokenVersion := none,
    kind := TokenKind.access, exp := 5000, sigOk := true }

/-! ## General lemmas about the state helpers -/

theorem find?_map_pres {α : Type} (p : α → Bool) (g : α → α)
    (hp : ∀ a, p (g a) = p a) (l : List α) :
    (l.map g).find? p = (l.find? p).map g := by
  induction l with
  | nil => rfl
  | cons a l ih =>
    by_cases h : p a = true
    · rw [List.map_cons, List.find?_cons_of_pos _ ((hp a).trans h),
        List.find?_cons_of_pos _ h]
      rfl
    · have h2 : ¬ p (g a) = true := by rw [hp]; exact h
      rw [List.map_cons, List.find?_cons_of_neg _ h2, List.find?_cons_of_neg _ h, ih]

theorem users_blacklistIfOutstanding (s : AuthState) (raw : String) :
    (blacklistIfOutstanding s raw).users = s.users := by
  unfold blacklistIfOutstanding
  split <;> rfl

theorem now_blacklistIfOutstanding (s : AuthState) (raw : String) :
    (blacklistIfOutstanding s raw).now = s.now := by
  unfold blacklistIfOutstanding
  split <;> rfl

theorem outstanding_blacklistIfOutstanding (s : AuthState) (raw : String) :
    (blacklistIfOutstanding s raw).outstanding = s.outstanding := by
  unfold blacklistIfOutstanding
  split <;> rfl

theorem mem_blacklist_blacklistIfOutstanding (s : AuthState) (raw x : String)
    (hx : x ∈ (blacklistIfOutstanding s raw).blacklist) :
    x ∈ s.blacklist ∨ x = raw := by
  unfold blacklistIfOutstanding at hx
  by_cases h : s.outstanding.contains raw = true
  · rw [if_pos h] at hx
    rcases List.mem_cons.mp hx with h1 | h1
    · exact Or.inr h1
    · exact Or.inl h1
  · rw [if_neg h] at hx
    exact Or.inl hx

theorem users_updateUser (s : AuthState) (uid : Nat) (f : Account → Account) :
    (updateUser s uid f).users
      = s.users.map (fun a => if a.id == uid then f a else a) := rfl

theorem blacklist_updateUser (s : AuthState) (uid : Nat) (f : Account → Account) :
    (updateUser s uid f).blacklist = s.blacklist := rfl

theorem outstanding_updateUser (s : AuthState) (uid : Nat) (f : Account → Account) :
    (updateUser s uid f).outstanding = s.outstanding := rfl

theorem now_updateUser (s : AuthState) (uid : Nat) (f : Account → Account) :
    (updateUser s uid f).now = s.now := rfl

/-- Looking a user up by a predicate after an updateUser whose mutation
preserves that predicate on the targeted accounts returns the mutated
hit. -/
theorem find?_updateUser (s : AuthState) (uid : Nat) (f : Account → Account)
    (p : Account → Bool)
    (hp : ∀ a, p (if a.id == uid then f a else a) = p a) :
    (updateUser s uid f).users.find? p
      = (s.users.find? p).map (fun a => if a.id == uid then f a else a) := by
  rw [users_updateUser]
  exact find?_map_pres p _ hp s.users

theorem findUser_updateUser {s : AuthState} {uid : Nat} {u : Account}
    (f : Account → Account) (hf : ∀ a, (f a).id = a.id)
    (hu : findUser s uid = some u) :
    findUser (updateUser s uid f) uid = some (f u) := by
  unfold findUser at hu ⊢
  rw [find?_updateUser]
  · have hid : (u.id == uid) = true := by simpa using List.find?_some hu
    rw [hu]
    simp only [Option.map_some']
    rw [if_pos hid]
  · intro a
    by_cases h : (a.id == uid) = true
    · rw [if_pos h]
      simp only [hf]
    · rw [if_neg h]

/-- Success characterization of CustomAccessToken.verify, given that
the subject account exists. -/
theorem customAccessVerify_ok_iff (s : AuthState) (t : Token) (u : Account)
    (hu : findUser s t.userId = some u) :
    customAccessVerify s t = Except.ok () ↔
      (superVerifyOk s t TokenKind.access = true ∧
       u.tokenVersion ≤ embeddedVersion t ∧ accessBlacklisted s t = false) := by
  unfold customAccessVerify
  rw [hu]
  by_cases h1 : superVerifyOk s t TokenKind.access = true <;>
    by_cases h2 : embeddedVersion t < u.tokenVersion <;>
      by_cases h3 : accessBlacklisted s t = true <;>
        simp [h1, h2, h3] <;> omega

theorem findUser_congr_users {s1 s2 : AuthState} (h : s1.users = s2.users)
    (uid : Nat) : findUser s1 uid = findUser s2 uid := by
  unfold findUser
  rw [h]

theorem users_logoutBlacklistPhase (s : AuthState) (r : LogoutRequest) (t : Token) :
    (logoutBlacklistPhase s r t).users = s.users := by
  unfold logoutBlacklistPhase
  split
  · rw [users_blacklistIfOutstanding, users_blacklistIfOutstanding]
  · rfl

theorem outstanding_logoutBlacklistPhase (s : AuthState) (r : LogoutRequest) (t : Token) :
    (logoutBlacklistPhase s r t).outstanding = s.outstanding := by
  unfold logoutBlacklistPhase
  split
  · rw [outstanding_blacklistIfOutstanding, outstanding_blacklistIfOutstanding]
  · rfl

theorem now_logoutBlacklistPhase (s : AuthState) (r : LogoutRequest) (t : Token) :
    (logoutBlacklistPhase s r t).now = s.now := by
  unfold logoutBlacklistPhase
  split
  · rw [now_blacklistIfOutstanding, now_blacklistIfOutstanding]
  · rfl

/-! ## Claim theorems -/

/-- C1: after a successful Logout, the requester's token_version has
been incremented by exactly one, and any access token issued to that
account before the logout (its embedded version being at most the
pre-logout token_version) fails CustomAccessToken verification. -/
theorem logout_invalidates_prior_access_tokens
    (s : AuthState) (r : LogoutRequest) (u : Account) (t : Token)
    (hu : findUser s r.requesterId = some u)
    (h200 : (logoutPost s r).2.status = 200)
    (ht : t.userId = r.requesterId)
    (hv : embeddedVersion t ≤ u.tokenVersion) :
    findUser (logoutPost s r).1 r.requesterId
        = some { u with tokenVersion := u.tokenVersion + 1 } ∧
    customAccessVerify (logoutPost s r).1 t ≠ Except.ok () := by
  unfold logoutPost at h200 ⊢
  rcases hr : r.refresh with _ | t0
  · rw [hr] at h200
    simp at h200
  · rw [hr] at h200
    dsimp only at h200 ⊢
    by_cases hc : refreshConstructOk s t0 = true
    · rw [if_pos hc] at h200 ⊢
      have hu1 : findUser (logoutBlacklistPhase s r t0) r.requesterId = some u := by
        rw [findUser_congr_users (users_logoutBlacklistPhase s r t0)]
        exact hu
      have hu2 : findUser
          (updateUser (logoutBlacklistPhase s r t0) r.requesterId increment_token_version)
          r.requesterId = some (increment_token_version u) :=
        findUser_updateUser increment_token_version (fun _ => rfl) hu1
      refine ⟨hu2, ?_⟩
      intro hok
      have hu3 : findUser
          (updateUser (logoutBlacklistPhase s r t0) r.requesterId increment_token_version)
          t.userId = some (increment_token_version u) := by
        rw [ht]
        exact hu2
      rw [customAccessVerify_ok_iff _ t _ hu3] at hok
      have h2 := hok.2.1
      unfold increment_token_version at h2
      simp at h2
      omega
    · rw [if_neg hc] at h200
      simp at h200

/-- C1 witness: in the demo state, logging alice out with her refresh
token answers 200, bumps her token_version from 0 to 1, and her
previously issued access token no longer verifies. -/
theorem logout_invalidates_prior_access_tokens_witness :
    findUser demoState 1 = some alice ∧
    (logoutPost demoState
      { requesterId := 1, refresh := some aliceRefresh,
        authHeader := "Bearer accRaw" }).2.status = 200 ∧
    aliceAccess.userId = 1 ∧
    embeddedVersion aliceAccess ≤ alice.tokenVersion ∧
    (findUser (logoutPost demoState
        { requesterId := 1, refresh := some aliceRefresh,
          authHeader := "Bearer accRaw" }).1 1
      = some { alice with tokenVersion := alice.tokenVersion + 1 } ∧
     customAccessVerify (logoutPost demoState
        { requesterId := 1, refresh := some aliceRefresh,
          authHeader := "Bearer accRaw" }).1 aliceAccess ≠ Except.ok ()) :=
  ⟨by decide, by decide, by decide, by decide,
   logout_invalidates_prior_access_tokens demoState
     { requesterId := 1, refresh := some aliceRefresh, authHeader := "Bearer accRaw" }
     alice aliceAccess (by decide) (by decide) (by decide) (by decide)⟩

/-- C3: access-token verification succeeds exactly when the signature
verifies, the token is unexpired and of access kind, the embedded
token_version is at least the owning account's current token_version,
and the token is not recorded as revoked in the blacklist side table;
any violation yields an InvalidToken error. -/
theorem access_verification_conditions (s : AuthState) (t : Token) (u : Account)
    (hu : findUser s t.userId = some u) :
    customAccessVerify s t = Except.ok () ↔
      (t.sigOk = true ∧ s.now < t.exp ∧ t.kind = TokenKind.access ∧
       u.tokenVersion ≤ embeddedVersion t ∧ accessBlacklisted s t = false) := by
  rw [customAccessVerify_ok_iff s t u hu]
  unfold superVerifyOk
  constructor
  · rintro ⟨h1, h2, h3⟩
    simp only [Bool.and_eq_true, decide_eq_true_eq, beq_iff_eq] at h1
    exact ⟨h1.1.1, h1.1.2, h1.2, h2, h3⟩
  · rintro ⟨h1, h2, h3, h4, h5⟩
    refine ⟨?_, h4, h5⟩
    simp [h1, h2, h3]

/-- C3 witness: alice's access token satisfies all four conditions in
the demo state and verification indeed succeeds. -/
theorem access_verification_conditions_witness :
    findUser demoState aliceAccess.userId = some alice ∧
    (customAccessVerify demoState aliceAccess = Except.ok () ↔
      (aliceAccess.sigOk = true ∧ demoState.now < aliceAccess.exp ∧
       aliceAccess.kind = TokenKind.access ∧
       alice.tokenVersion ≤ embeddedVersion aliceAccess ∧
       accessBlacklisted demoState aliceAccess = false)) :=
  ⟨by decide, access_verification_conditions demoState aliceAccess alice (by decide)⟩

/-- C2: given a refresh token that passes RefreshToken construction and
whose subject account exists, the refresh endpoint answers 401 with the
invalid-refresh-token body exactly when the embedded token_version is
below the account's current one, and otherwise issues a fresh
refresh+access pair whose token_version claims equal the account's
current token_version. -/
theorem refresh_version_gate
    (s : AuthState) (t : Token) (u : Account) (rawR rawA : String) (expR expA : Nat)
    (hok : refreshConstructOk s t = true)
    (hu : findUser s t.userId = some u) :
    (embeddedVersion t < u.tokenVersion →
      tokenRefreshPost s t rawR rawA expR expA
        = { status := 401, body := "Invalid refresh token.", tokens := none }) ∧
    (u.tokenVersion ≤ embeddedVersion t →
      tokenRefreshPost s t rawR rawA expR expA
        = { status := 200, body := "",
            tokens := some (issueToken u TokenKind.refresh rawR expR,
                            issueToken u TokenKind.access rawA expA) } ∧
      (issueToken u TokenKind.refresh rawR expR).tokenVersion = some u.tokenVersion ∧
      (issueToken u TokenKind.access rawA expA).tokenVersion = some u.tokenVersion) := by
  unfold tokenRefreshPost
  rw [if_pos hok, hu]
  dsimp only
  constructor
  · intro h
    rw [if_pos h]
  · intro h
    rw [if_neg (Nat.not_lt.mpr h)]
    exact ⟨rfl, rfl, rfl⟩

/-- C2 witness: alice's refresh token carries version 0 and alice is at
version 0, so refreshing succeeds and both fresh tokens carry version
0; the 401 branch holds vacuously. -/
theorem refresh_version_gate_witness :
    refreshConstructOk demoState aliceRefresh = true ∧
    findUser demoState aliceRefresh.userId = some alice ∧
    ((embeddedVersion aliceRefresh < alice.tokenVersion →
      tokenRefreshPost demoState aliceRefresh "r2" "a2" 9000 5000
        = { status := 401, body := "Invalid refresh token.", tokens := none }) ∧
     (alice.tokenVersion ≤ embeddedVersion aliceRefresh →
      tokenRefreshPost demoState aliceRefresh "r2" "a2" 9000 5000
        = { status := 200, body := "",
            tokens := some (issueToken alice TokenKind.refresh "r2" 9000,
                            issueToken alice TokenKind.access "a2" 5000) } ∧
      (issueToken alice TokenKind.refresh "r2" 9000).tokenVersion = some alice.tokenVersion ∧
      (issueToken alice TokenKind.access "a2" 5000).tokenVersion = some alice.tokenVersion)) :=
  ⟨by decide, by decide,
   refresh_version_gate demoState aliceRefresh alice "r2" "a2" 9000 5000
     (by decide) (by decide)⟩

/-- C9: a token whose payload lacks the token_version claim is read
back as version 0 by both the refresh endpoint and access verification:
while the account is still at version 0 the token passes the version
check (and is accepted when the remaining checks pass), and as soon as
the account's version is positive the token is rejected by both. -/
theorem missing_version_claim_defaults_to_zero
    (s : AuthState) (t : Token) (u : Account) (rawR rawA : String) (expR expA : Nat)
    (hnone : t.tokenVersion = none)
    (hu : findUser s t.userId = some u) :
    embeddedVersion t = 0 ∧
    (0 < u.tokenVersion →
      customAccessVerify s t ≠ Except.ok () ∧
      (tokenRefreshPost s t rawR rawA expR expA).status = 401) ∧
    (u.tokenVersion = 0 →
      (refreshConstructOk s t = true →
        (tokenRefreshPost s t rawR rawA expR expA).status = 200) ∧
      (superVerifyOk s t TokenKind.access = true → accessBlacklisted s t = false →
        customAccessVerify s t = Except.ok ())) := by
  have he : embeddedVersion t = 0 := by
    unfold embeddedVersion
    rw [hnone]
    rfl
  refine ⟨he, ?_, ?_⟩
  · intro hpos
    constructor
    · intro hok
      rw [customAccessVerify_ok_iff s t u hu] at hok
      have h2 := hok.2.1
      rw [he] at h2
      omega
    · unfold tokenRefreshPost
      by_cases hc : refreshConstructOk s t = true
      · rw [if_pos hc, hu]
        dsimp only
        rw [if_pos (by rw [he]; exact hpos)]
      · rw [if_neg hc]
  · intro hz
    constructor
    · intro hc
      unfold tokenRefreshPost
      rw [if_pos hc, hu]
      dsimp only
      rw [if_neg (by rw [he, hz]; omega)]
    · intro hsv hbl
      rw [customAccessVerify_ok_iff s t u hu]
      exact ⟨hsv, by rw [he, hz], hbl⟩

/-- C9 witness: bob's legacy refresh token (no token_version claim) is
rejected by refresh and verification because bob is at version 3, and
alice's legacy access token verifies because alice is at version 0. -/
theorem missing_version_claim_defaults_to_zero_witness :
    (bobLegacyRefresh.tokenVersion = none ∧
     findUser demoState bobLegacyRefresh.userId = some bob ∧
     0 < bob.tokenVersion ∧
     customAccessVerify demoState bobLegacyRefresh ≠ Except.ok () ∧
     (tokenRefreshPost demoState bobLegacyRefresh "r2" "a2" 9000 5000).status = 401) ∧
    (aliceLegacyAccess.tokenVersion = none ∧
     findUser demoState aliceLegacyAccess.userId = some alice ∧
     alice.tokenVersion = 0 ∧
     customAccessVerify demoState aliceLegacyAccess = Except.ok ()) :=
  ⟨⟨by decide, by decide, by decide,
    ((missing_version_claim_defaults_to_zero demoState bobLegacyRefresh bob
        "r2" "a2" 9000 5000 (by decide) (by decide)).2.1 (by decide)).1,
    ((missing_version_claim_defaults_to_zero demoState bobLegacyRefresh bob
        "r2" "a2" 9000 5000 (by decide) (by decide)).2.1 (by decide)).2⟩,
   ⟨by decide, by decide, by decide,
    (((missing_version_claim_defaults_to_zero demoState aliceLegacyAccess alice
        "r2" "a2" 9000 5000 (by decide) (by decide)).2.2 (by decide)).2
      (by decide) (by decide))⟩⟩

/-- C10: a logout request carrying a refresh token that passes
construction increments the token_version of the authenticated
requester (whoever the supplied refresh token belongs to), changes no
other account field and no other account, reports success, leaves the
outstanding table and the clock unchanged, and touches the blacklist
only when the Authorization header starts with Bearer, in which case
the only strings that can join it are the refresh token and the token
taken from the header. -/
theorem logout_frame_and_blacklist_gating
    (s : AuthState) (r : LogoutRequest) (u : Account) (t : Token)
    (hu : findUser s r.requesterId = some u)
    (hr : r.refresh = some t)
    (hok : refreshConstructOk s t = true) :
    (logoutPost s r).2 = { status := 200, body := "Successfully logged out." } ∧
    findUser (logoutPost s r).1 r.requesterId
      = some { u with tokenVersion := u.tokenVersion + 1 } ∧
    (logoutPost s r).1.users
      = s.users.map (fun a => if a.id == r.requesterId then increment_token_version a else a) ∧
    (¬ r.authHeader.startsWith "Bearer " = true →
      (logoutPost s r).1.blacklist = s.blacklist) ∧
    (r.authHeader.startsWith "Bearer " = true →
      ∀ x ∈ (logoutPost s r).1.blacklist,
        x ∈ s.blacklist ∨ x = t.raw ∨ x = bearerAccessRaw r.authHeader) ∧
    (logoutPost s r).1.outstanding = s.outstanding ∧
    (logoutPost s r).1.now = s.now := by
  unfold logoutPost
  rw [hr]
  dsimp only
  rw [if_pos hok]
  have hu1 : findUser (logoutBlacklistPhase s r t) r.requesterId = some u := by
    rw [findUser_congr_users (users_logoutBlacklistPhase s r t)]
    exact hu
  refine ⟨rfl, ?_, ?_, ?_, ?_, ?_, ?_⟩
  · exact findUser_updateUser increment_token_version (fun _ => rfl) hu1
  · rw [users_updateUser, users_logoutBlacklistPhase]
  · intro hb
    rw [blacklist_updateUser]
    unfold logoutBlacklistPhase
    rw [if_neg hb]
  · intro hb x hx
    rw [blacklist_updateUser] at hx
    unfold logoutBlacklistPhase at hx
    rw [if_pos hb] at hx
    rcases mem_blacklist_blacklistIfOutstanding _ _ _ hx with h1 | h1
    · rcases mem_blacklist_blacklistIfOutstanding _ _ _ h1 with h2 | h2
      · exact Or.inl h2
      · exact Or.inr (Or.inl h2)
    · exact Or.inr (Or.inr h1)
  · rw [outstanding_updateUser, outstanding_logoutBlacklistPhase]
  · rw [now_updateUser, now_logoutBlacklistPhase]

/-- C10 witness: alice logs out while presenting a refresh token that
belongs to bob; the response is 200, alice's version is bumped, bob's
account is untouched, and with a Bearer header the blacklist gains at
most the two presented tokens. -/
theorem logout_frame_and_blacklist_gating_witness :
    findUser demoState 1 = some alice ∧
    refreshConstructOk demoState bobLegacyRefresh = true ∧
    ((logoutPost demoState
        { requesterId := 1, refresh := some bobLegacyRefresh,
          authHeader := "Bearer accRaw" }).2
      = { status := 200, body := "Successfully logged out." } ∧
     findUser (logoutPost demoState
        { requesterId := 1, refresh := some bobLegacyRefresh,
          authHeader := "Bearer accRaw" }).1 1
      = some { alice with tokenVersion := alice.tokenVersion + 1 }) :=
  ⟨by decide, by decide,
   ⟨(logout_frame_and_blacklist_gating demoState
      { requesterId := 1, refresh := some bobLegacyRefresh, authHeader := "Bearer accRaw" }
      alice bobLegacyRefresh (by decide) rfl (by decide)).1,
    (logout_frame_and_blacklist_gating demoState
      { requesterId := 1, refresh := some bobLegacyRefresh, authHeader := "Bearer accRaw" }
      alice bobLegacyRefresh (by decide) rfl (by decide)).2.1⟩⟩

/-- C4: confirming a password reset with the matching, unexpired token
answers 200, stores the new password, clears both reset-token fields,
and increments token_version, after which a refresh token issued before
the reset (embedded version at most the pre-reset token_version) is
rejected with 401 by the refresh endpoint. -/
theorem confirm_reset_clears_and_invalidates
    (s : AuthState) (u : Account) (tok T : Nat) (pw : String) (t : Token)
    (rawR rawA : String) (expR expA : Nat)
    (hfind : findByResetToken s tok = some u)
    (hcr : u.passwordResetTokenCreated = some T)
    (hwin : s.now - T ≤ 86400)
    (hid : findUser s u.id = some u)
    (ht : t.userId = u.id)
    (hv : embeddedVersion t ≤ u.tokenVersion) :
    (passwordResetConfirmPost s (some tok) pw).2.status = 200 ∧
    findUser (passwordResetConfirmPost s (some tok) pw).1 u.id
      = some { u with
          password := some pw
          passwordResetToken := none
          passwordResetTokenCreated := none
          tokenVersion := u.tokenVersion + 1 } ∧
    (tokenRefreshPost (passwordResetConfirmPost s (some tok) pw).1
        t rawR rawA expR expA).status = 401 := by
  have htok : u.passwordResetToken = some tok := by
    simpa using List.find?_some hfind
  have hvalid : is_password_reset_token_valid u tok s.now = some true := by
    unfold is_password_reset_token_valid
    rw [if_neg (by rw [htok]; simp), hcr]
    simp [hwin]
  unfold passwordResetConfirmPost
  dsimp only
  rw [hfind]
  dsimp only
  rw [hvalid]
  dsimp only
  have hup : findUser
      (updateUser s u.id (fun a =>
        increment_token_version
          (clear_password_reset_token { a with password := some pw }))) u.id
      = some { u with
          password := some pw
          passwordResetToken := none
          passwordResetTokenCreated := none
          tokenVersion := u.tokenVersion + 1 } :=
    findUser_updateUser _ (fun _ => rfl) hid
  refine ⟨rfl, hup, ?_⟩
  have hup3 : findUser
      (updateUser s u.id (fun a =>
        increment_token_version
          (clear_password_reset_token { a with password := some pw }))) t.userId
      = some { u with
          password := some pw
          passwordResetToken := none
          passwordResetTokenCreated := none
          tokenVersion := u.tokenVersion + 1 } := by
    rw [ht]
    exact hup
  unfold tokenRefreshPost
  by_cases hc : refreshConstructOk
      (updateUser s u.id (fun a =>
        increment_token_version
          (clear_password_reset_token { a with password := some pw }))) t = true
  · rw [if_pos hc, hup3]
    dsimp only
    rw [if_pos (by omega)]
  · rw [if_neg hc]

/-- C4 witness: bob confirms his pending reset in the demo state; the
response is 200, his account is reset and bumped to version 4, and his
pre-reset legacy refresh token is rejected by refresh with 401. -/
theorem confirm_reset_clears_and_invalidates_witness :
    findByResetToken demoState 77 = some bob ∧
    bob.passwordResetTokenCreated = some 1000 ∧
    demoState.now - 1000 ≤ 86400 ∧
    ((passwordResetConfirmPost demoState (some 77) "newpw").2.status = 200 ∧
     findUser (passwordResetConfirmPost demoState (some 77) "newpw").1 bob.id
       = some { bob with
           password := some "newpw"
           passwordResetToken := none
           passwordResetTokenCreated := none
           tokenVersion := bob.tokenVersion + 1 } ∧
     (tokenRefreshPost (passwordResetConfirmPost demoState (some 77) "newpw").1
        bobLegacyRefresh "r2" "a2" 9000 5000).status = 401) :=
  ⟨by decide, by decide, by decide,
   confirm_reset_clears_and_invalidates demoState bob 77 1000 "newpw"
     bobLegacyRefresh "r2" "a2" 9000 5000
     (by decide) (by decide) (by decide) (by decide) (by decide) (by decide)⟩

/-- C5: with the matching reset token and a creation time T, the model
of User.is_password_reset_token_valid accepts exactly while
now - T is at most 86400 seconds; at the view level, confirming at
T+86400 succeeds and confirming at T+86401 is rejected with the
invalid-or-expired 400 and leaves the state unchanged. -/
theorem reset_token_24h_window
    (s : AuthState) (u : Account) (tok T : Nat) (pw : String)
    (hfind : findByResetToken s tok = some u)
    (hcr : u.passwordResetTokenCreated = some T) :
    is_password_reset_token_valid u tok s.now
      = some (decide (s.now - T ≤ 86400)) ∧
    (s.now = T + 86400 → (passwordResetConfirmPost s (some tok) pw).2.status = 200) ∧
    (s.now = T + 86401 →
      passwordResetConfirmPost s (some tok) pw
        = (s, { status := 400,
                body := "Invalid or expired token. Please request a new password reset." })) := by
  have htok : u.passwordResetToken = some tok := by
    simpa using List.find?_some hfind
  have hvalid : is_password_reset_token_valid u tok s.now
      = some (decide (s.now - T ≤ 86400)) := by
    unfold is_password_reset_token_valid
    rw [if_neg (by rw [htok]; simp), hcr]
  refine ⟨hvalid, ?_, ?_⟩
  · intro hnow
    have hdec : is_password_reset_token_valid u tok s.now = some true := by
      rw [hvalid]
      simp [hnow]
    unfold passwordResetConfirmPost
    dsimp only
    rw [hfind]
    dsimp only
    rw [hdec]
  · intro hnow
    have hdec : is_password_reset_token_valid u tok s.now = some false := by
      rw [hvalid, hnow]
      simp
    unfold passwordResetConfirmPost
    dsimp only
    rw [hfind]
    dsimp only
    rw [hdec]

/-- C5 witness: bob's reset token was created at time 1000; confirming
at time 87400 (exactly 86400 seconds later) answers 200, confirming at
time 87401 answers the invalid-or-expired 400 with the state
unchanged. -/
theorem reset_token_24h_window_witness :
    (findByResetToken { demoState with now := 87400 } 77 = some bob ∧
     bob.passwordResetTokenCreated = some 1000 ∧
     (passwordResetConfirmPost { demoState with now := 87400 }
        (some 77) "newpw").2.status = 200) ∧
    (findByResetToken { demoState with now := 87401 } 77 = some bob ∧
     passwordResetConfirmPost { demoState with now := 87401 } (some 77) "newpw"
       = ({ demoState with now := 87401 },
          { status := 400,
            body := "Invalid or expired token. Please request a new password reset." })) :=
  ⟨⟨by decide, by decide,
    (reset_token_24h_window { demoState with now := 87400 } bob 77 1000 "newpw"
      (by decide) (by decide)).2.1 (by decide)⟩,
   ⟨by decide,
    (reset_token_24h_window { demoState with now := 87401 } bob 77 1000 "newpw"
      (by decide) (by decide)).2.2 (by decide)⟩⟩

/-- C6 counterexample: the claim fails as stated.  In the demo state
the email alice@x.com exists and nobody@x.com does not; when the
notification send fails, the request for the existing email answers
500 while the request for the unknown email answers 200, so the two
externally observable outcomes differ. -/
theorem reset_request_outcomes_differ_on_send_failure :
    (passwordResetRequestPost demoState (some "alice@x.com") 99 false).2
      ≠ (passwordResetRequestPost demoState (some "nobody@x.com") 99 false).2 := by
  decide

/-- C6 (amended): provided the password-reset notification send
succeeds, RequestPasswordReset returns the identical response (status
200 and the same body) whether or not an account with the email
exists. -/
theorem reset_request_enumeration_resistance
    (s : AuthState) (e1 e2 : String) (tok1 tok2 : Nat) (u : Account)
    (h1 : findByEmail s e1 = some u)
    (h2 : findByEmail s e2 = none) :
    (passwordResetRequestPost s (some e1) tok1 true).2
      = (passwordResetRequestPost s (some e2) tok2 true).2 ∧
    (passwordResetRequestPost s (some e1) tok1 true).2
      = { status := 200, body := "Password reset email has been sent." } := by
  unfold passwordResetRequestPost
  dsimp only
  rw [h1, h2]
  exact ⟨rfl, rfl⟩

/-- C6 witness: with a successful send, requesting a reset for the
existing alice@x.com and for the unknown nobody@x.com produces the
same 200 response. -/
theorem reset_request_enumeration_resistance_witness :
    findByEmail demoState "alice@x.com" = some alice ∧
    findByEmail demoState "nobody@x.com" = none ∧
    ((passwordResetRequestPost demoState (some "alice@x.com") 99 true).2
      = (passwordResetRequestPost demoState (some "nobody@x.com") 99 true).2 ∧
     (passwordResetRequestPost demoState (some "alice@x.com") 99 true).2
      = { status := 200, body := "Password reset email has been sent." }) :=
  ⟨by decide, by decide,
   reset_request_enumeration_resistance demoState "alice@x.com" "nobody@x.com"
     99 99 alice (by decide) (by decide)⟩

/-- C7: with a verification token that matches an account, VerifyEmail
answers 200, a second call with the same token answers 200 again,
changes nothing and does not trigger the welcome notification again;
with a token matching no account the endpoint answers 400 and the
state is unchanged. -/
theorem verify_email_idempotent (s : AuthState) (tok : Nat) (u : Account)
    (hu : findByVerificationToken s tok = some u) :
    (verifyEmailGet s tok).status = 200 ∧
    (verifyEmailGet (verifyEmailGet s tok).state tok).status = 200 ∧
    (verifyEmailGet (verifyEmailGet s tok).state tok).state
      = (verifyEmailGet s tok).state ∧
    (verifyEmailGet (verifyEmailGet s tok).state tok).welcomeSent = false ∧
    (∀ tok2, findByVerificationToken s tok2 = none →
      verifyEmailGet s tok2
        = { state := s, status := 400, detail := "Invalid token.",
            welcomeSent := false }) := by
  have hlast : ∀ tok2, findByVerificationToken s tok2 = none →
      verifyEmailGet s tok2
        = { state := s, status := 400, detail := "Invalid token.",
            welcomeSent := false } := by
    intro tok2 h2
    unfold verifyEmailGet
    rw [h2]
  by_cases hver : u.emailVerified = true
  · have hr1 : verifyEmailGet s tok
        = { state := s, status := 200, detail := "Email already verified.",
            welcomeSent := false } := by
      unfold verifyEmailGet
      rw [hu]
      dsimp only
      rw [if_pos hver]
    rw [hr1]
    dsimp only
    rw [hr1]
    exact ⟨rfl, rfl, rfl, rfl, hlast⟩
  · have hr1 : verifyEmailGet s tok
        = { state := updateUser s u.id (fun a => { a with emailVerified := true }),
            status := 200,
            detail := "Email verified successfully. Welcome email has been sent.",
            welcomeSent := true } := by
      unfold verifyEmailGet
      rw [hu]
      dsimp only
      rw [if_neg hver]
    have hu2 : findByVerificationToken
        (updateUser s u.id (fun a => { a with emailVerified := true })) tok
        = some { u with emailVerified := true } := by
      unfold findByVerificationToken at hu ⊢
      rw [find?_updateUser]
      · rw [hu]
        simp only [Option.map_some']
        have hid : (u.id == u.id) = true := by simp
        rw [if_pos hid]
      · intro a
        by_cases h : (a.id == u.id) = true
        · rw [if_pos h]
        · rw [if_neg h]
    have hr2 : verifyEmailGet
        (updateUser s u.id (fun a => { a with emailVerified := true })) tok
        = { state := updateUser s u.id (fun a => { a with emailVerified := true }),
            status := 200, detail := "Email already verified.",
            welcomeSent := false } := by
      unfold verifyEmailGet
      rw [hu2]
      rfl
    rw [hr1]
    dsimp only
    rw [hr2]
    exact ⟨rfl, rfl, rfl, rfl, hlast⟩

/-- C7 witness: verifying bob's email twice with his token 22 answers
200 both times, the second call changes nothing and sends no welcome
email; the unknown token 99 answers 400 with the state unchanged. -/
theorem verify_email_idempotent_witness :
    findByVerificationToken demoState 22 = some bob ∧
    ((verifyEmailGet demoState 22).status = 200 ∧
     (verifyEmailGet (verifyEmailGet demoState 22).state 22).status = 200 ∧
     (verifyEmailGet (verifyEmailGet demoState 22).state 22).state
       = (verifyEmailGet demoState 22).state ∧
     (verifyEmailGet (verifyEmailGet demoState 22).state 22).welcomeSent = false) ∧
    verifyEmailGet demoState 99
      = { state := demoState, status := 400, detail := "Invalid token.",
          welcomeSent := false } :=
  ⟨by decide,
   ⟨(verify_email_idempotent demoState 22 bob (by decide)).1,
    (verify_email_idempotent demoState 22 bob (by decide)).2.1,
    (verify_email_idempotent demoState 22 bob (by decide)).2.2.1,
    (verify_email_idempotent demoState 22 bob (by decide)).2.2.2.1⟩,
   (verify_email_idempotent demoState 22 bob (by decide)).2.2.2.2 99 (by decide)⟩

theorem find?_append_none {α : Type} (p : α → Bool) (l1 l2 : List α)
    (h : l1.find? p = none) : (l1 ++ l2).find? p = l2.find? p := by
  induction l1 with
  | nil => rfl
  | cons a l ih =>
    have ha : ¬ p a = true := by
      intro hpa
      rw [List.find?_cons_of_pos _ hpa] at h
      cases h
    rw [List.cons_append, List.find?_cons_of_neg _ ha]
    apply ih
    rwa [List.find?_cons_of_neg _ ha] at h

/-- The disambiguation loop returns the candidate with the least
counter value that is free, provided one exists within the fuel. -/
theorem uniqueUsernameAux_eq_of_least (s : AuthState) (base : String) :
    ∀ (fuel start k : Nat), start ≤ k → k < start + fuel →
      usernameTaken s (base ++ toString k) = false →
      (∀ j, start ≤ j → j < k → usernameTaken s (base ++ toString j) = true) →
      uniqueUsernameAux s base fuel start = base ++ toString k := by
  intro fuel
  induction fuel with
  | zero =>
    intro start k h1 h2 h3 h4
    omega
  | succ n ih =>
    intro start k h1 h2 h3 h4
    show (if usernameTaken s (base ++ toString start) then
        uniqueUsernameAux s base n (start + 1) else base ++ toString start)
      = base ++ toString k
    by_cases h : usernameTaken s (base ++ toString start) = true
    · rw [if_pos h]
      have hks : start < k := by
        rcases Nat.lt_or_ge start k with hlt | hge
        · exact hlt
        · have hk : k = start := by omega
          rw [hk] at h3
          rw [h3] at h
          exact Bool.noConfusion h
      exact ih (start + 1) k hks (by omega) h3 (fun j hj1 hj2 => h4 j (by omega) hj2)
    · rw [if_neg h]
      have hk : k = start := by
        by_contra hne
        have hlt : start < k := by omega
        exact h (h4 start (Nat.le_refl _) hlt)
      rw [hk]

/-- Username selection when the base name collides: the least free
numeric suffix within the fuel bound is chosen. -/
theorem uniqueUsername_taken (s : AuthState) (base : String) (k : Nat)
    (htaken : usernameTaken s base = true)
    (hk1 : 1 ≤ k) (hk2 : k < s.users.length + 2)
    (hfree : usernameTaken s (base ++ toString k) = false)
    (hleast : ∀ j, 1 ≤ j → j < k → usernameTaken s (base ++ toString j) = true) :
    uniqueUsername s base = base ++ toString k := by
  unfold uniqueUsername
  rw [if_pos htaken]
  exact uniqueUsernameAux_eq_of_least s base (s.users.length + 1) 1 k hk1
    (by omega) hfree hleast

/-- C8: FederatedLogin is find-or-create on the email.  A second call
with the same email returns an account with the same id and creates no
further account; a single call grows the user table by at most one row.
When the email is unknown, the created account carries the email,
email_verified true and the unusable-password sentinel, and its handle
is the email local part when free, otherwise the local part with the
smallest positive numeric suffix whose candidate is not taken. -/
theorem federated_login_find_or_create
    (s : AuthState) (email fn ln fn2 ln2 : String) (pic pic2 : Option String)
    (id1 id2 vt1 vt2 : Nat) :
    (googleLoginPost (googleLoginPost s email fn ln pic id1 vt1).1
        email fn2 ln2 pic2 id2 vt2).2.id
      = (googleLoginPost s email fn ln pic id1 vt1).2.id ∧
    (googleLoginPost (googleLoginPost s email fn ln pic id1 vt1).1
        email fn2 ln2 pic2 id2 vt2).1.users.length
      = (googleLoginPost s email fn ln pic id1 vt1).1.users.length ∧
    (googleLoginPost s email fn ln pic id1 vt1).1.users.length
      ≤ s.users.length + 1 ∧
    (findByEmail s email = none →
      (googleLoginPost s email fn ln pic id1 vt1).1.users.length
        = s.users.length + 1 ∧
      (googleLoginPost s email fn ln pic id1 vt1).2.email = email ∧
      (googleLoginPost s email fn ln pic id1 vt1).2.emailVerified = true ∧
      (googleLoginPost s email fn ln pic id1 vt1).2.password = none ∧
      (usernameTaken s (localPart email) = false →
        (googleLoginPost s email fn ln pic id1 vt1).2.username = localPart email) ∧
      (∀ k, usernameTaken s (localPart email) = true → 1 ≤ k →
        k < s.users.length + 2 →
        usernameTaken s (localPart email ++ toString k) = false →
        (∀ j, 1 ≤ j → j < k →
          usernameTaken s (localPart email ++ toString j) = true) →
        (googleLoginPost s email fn ln pic id1 vt1).2.username
          = localPart email ++ toString k)) := by
  have hsecond : ∀ (s2 : AuthState) (u2 : Account), findByEmail s2 email = some u2 →
      (googleLoginPost s2 email fn2 ln2 pic2 id2 vt2).2.id = u2.id ∧
      (googleLoginPost s2 email fn2 ln2 pic2 id2 vt2).1.users.length
        = s2.users.length := by
    intro s2 u2 hu2
    unfold googleLoginPost
    rw [hu2]
    dsimp only
    refine ⟨rfl, ?_⟩
    rw [users_updateUser, List.length_map]
  rcases hcase : findByEmail s email with _ | u
  · have h1 : googleLoginPost s email fn ln pic id1 vt1
        = ({ s with users := s.users
              ++ [googleNewUser s email fn ln pic id1 vt1] },
           googleNewUser s email fn ln pic id1 vt1) := by
      unfold googleLoginPost
      rw [hcase]
    have hm : findByEmail (googleLoginPost s email fn ln pic id1 vt1).1 email
        = some (googleLoginPost s email fn ln pic id1 vt1).2 := by
      rw [h1]
      unfold findByEmail at hcase ⊢
      dsimp only
      rw [find?_append_none _ _ _ hcase]
      exact List.find?_cons_of_pos _ (by simp [googleNewUser])
    refine ⟨(hsecond _ _ hm).1.trans (by rw [h1]), (hsecond _ _ hm).2, ?_, ?_⟩
    · rw [h1]
      simp
    · intro _
      refine ⟨by rw [h1]; simp, by rw [h1]; rfl, by rw [h1]; rfl, by rw [h1]; rfl, ?_, ?_⟩
      · intro hfreebase
        rw [h1]
        show uniqueUsername s (localPart email) = localPart email
        unfold uniqueUsername
        rw [if_neg (by rw [hfreebase]; simp)]
      · intro k htaken hk1 hk2 hfree hleast
        rw [h1]
        exact uniqueUsername_taken s (localPart email) k htaken hk1 hk2 hfree hleast
  · have h1 : googleLoginPost s email fn ln pic id1 vt1
        = (updateUser s u.id (googleUpdate fn ln pic), googleUpdate fn ln pic u) := by
      unfold googleLoginPost
      rw [hcase]
    have hm : findByEmail (googleLoginPost s email fn ln pic id1 vt1).1 email
        = some (googleLoginPost s email fn ln pic id1 vt1).2 := by
      rw [h1]
      unfold findByEmail at hcase ⊢
      dsimp only
      rw [find?_updateUser]
      · rw [hcase]
        simp only [Option.map_some']
        have hid : (u.id == u.id) = true := by simp
        rw [if_pos hid]
      · intro a
        by_cases h : (a.id == u.id) = true
        · rw [if_pos h]
          rfl
        · rw [if_neg h]
    refine ⟨(hsecond _ _ hm).1.trans rfl, (hsecond _ _ hm).2, ?_, ?_⟩
    · rw [h1]
      dsimp only
      rw [users_updateUser, List.length_map]
      omega
    · intro hnone
      exact Option.noConfusion hnone

/-- C8 witness: alice@y.com is unknown in the demo state but the local
part alice collides with the existing handle, so the created account
gets the handle alice1 carrying a verified email and unusable password,
and a second federated login with the same email returns the same
account id without creating another row. -/
theorem federated_login_find_or_create_witness :
    findByEmail demoState "alice@y.com" = none ∧
    usernameTaken demoState "alice" = true ∧
    usernameTaken demoState "alice1" = false ∧
    (googleLoginPost (googleLoginPost demoState "alice@y.com" "A" "B" none 10 100).1
        "alice@y.com" "C" "D" none 11 101).2.id
      = (googleLoginPost demoState "alice@y.com" "A" "B" none 10 100).2.id ∧
    (googleLoginPost (googleLoginPost demoState "alice@y.com" "A" "B" none 10 100).1
        "alice@y.com" "C" "D" none 11 101).1.users.length
      = (googleLoginPost demoState "alice@y.com" "A" "B" none 10 100).1.users.length ∧
    (googleLoginPost demoState "alice@y.com" "A" "B" none 10 100).2.username
      = "alice1" ∧
    (googleLoginPost demoState "alice@y.com" "A" "B" none 10 100).2.emailVerified
      = true ∧
    (googleLoginPost demoState "alice@y.com" "A" "B" none 10 100).2.password
      = none :=
  ⟨by decide, by decide, by decide,
   (federated_login_find_or_create demoState "alice@y.com" "A" "B" "C" "D"
     none none 10 11 100 101).1,
   (federated_login_find_or_create demoState "alice@y.com" "A" "B" "C" "D"
     none none 10 11 100 101).2.1,
   (((federated_login_find_or_create demoState "alice@y.com" "A" "B" "C" "D"
       none none 10 11 100 101).2.2.2 (by decide)).2.2.2.2.2 1 (by decide)
     (by decide) (by decide) (by decide)
     (fun j hj1 hj2 => absurd (Nat.lt_of_lt_of_le hj2 hj1) (Nat.lt_irrefl j))).trans
     (by decide),
   ((federated_login_find_or_create demoState "alice@y.com" "A" "B" "C" "D"
       none none 10 11 100 101).2.2.2 (by decide)).2.2.1,
   ((federated_login_find_or_create demoState "alice@y.com" "A" "B" "C" "D"
       none none 10 11 100 101).2.2.2 (by decide)).2.2.2.1⟩

end DjangoAuth
